import Mathlib

/-!
Verification of the `ss_subscription_svc` repository core: the Stripe event
processor (`stripe_event_processor.py`), the retrying provider client
(`stripe_integration.py`) and the HTTP router (`routers/stripe_router.py`),
shallowly embedded in Lean.
-/

/-- A row of the `subscriptions` table (`models/subscription.py`):
primary key `stripe_subscription_id` and a nullable `status` column. -/
structure Subscription where
  stripe_subscription_id : String
  status : Option String
deriving DecidableEq, Repr

/-- An inbound Stripe event (`event: dict` in `process_event`).
Every field the processor reads is modelled; `none` stands for a missing
key, so `Option` mirrors `dict.get`.  `data_object_subscription` is the
value of `event.get('data', \x7b\x7d).get('object', \x7b\x7d).get('subscription')`. -/
structure Event where
  type_ : Option String
  id : Option String
  created : Option Int
  data_object_subscription : Option String
deriving DecidableEq, Repr

/-- Python truthiness of an optional string: `not x` is true when the key
is missing (`None`) or the string is empty. `truthy o` is `false` exactly
when Python's `not` on the fetched value is true. -/
def truthy : Option String → Bool
  | none => false
  | some s => s ≠ ""

/-- The SQLAlchemy session as seen by `process_event`: `persisted` is the
committed table contents, `pending` the in-memory state of the unit of
work (queries read it, mutations write it), and `commitError` injects the
behaviour of `db.commit()`: `none` means commit succeeds, `some e` means
commit raises the exception `e`. -/
structure Session where
  persisted : List Subscription
  pending : List Subscription
  commitError : Option String
deriving DecidableEq, Repr

/-- `db.query(Subscription).filter(Subscription.stripe_subscription_id == subId).first()`. -/
def findSubscription (rows : List Subscription) (subId : String) : Option Subscription :=
  rows.find? (fun s => s.stripe_subscription_id == subId)

/-- Assignment `subscription.status = newStatus` on the row returned by
`.first()`: updates the first row whose id matches. -/
def updateFirst (rows : List Subscription) (subId newStatus : String) : List Subscription :=
  match rows with
  | [] => []
  | r :: rs =>
    if r.stripe_subscription_id == subId then { r with status := some newStatus } :: rs
    else r :: updateFirst rs subId newStatus

/-- The in-memory mutation step of the unit of work. -/
def Session.mutate (db : Session) (subId newStatus : String) : Session :=
  { db with pending := updateFirst db.pending subId newStatus }

/-- `db.commit()`: on success the pending state becomes persisted;
otherwise it raises the injected exception. -/
def Session.commit (db : Session) : Except String Session :=
  match db.commitError with
  | none => .ok { db with persisted := db.pending }
  | some e => .error e

/-- `db.rollback()`: the pending state is reset to the persisted state. -/
def Session.rollback (db : Session) : Session :=
  { db with pending := db.persisted }

/-- Errors `process_event` can raise: `ValueError` for malformed events,
or the commit exception re-raised after rollback. -/
inductive ProcErr where
  | malformed (msg : String)
  | commitFailure (e : String)
deriving DecidableEq, Repr

/-- Outcome of `process_event`: the session state after the call together
with the exception raised, if any (`err = none` means normal return). -/
structure ProcResult where
  db : Session
  err : Option ProcErr
deriving DecidableEq, Repr

/-- The shared branch body of `process_event` for the two supported event
types: look up the record by id; if found, set its status, commit, and on
commit failure roll back and re-raise; if not found, log and return. -/
def handleStatusUpdate (db : Session) (subId newStatus : String) : ProcResult :=
  match findSubscription db.pending subId with
  | some _ =>
    let db1 := db.mutate subId newStatus
    match db1.commit with
    | .ok db2 => { db := db2, err := none }
    | .error e => { db := db1.rollback, err := some (.commitFailure e) }
  | none => { db := db, err := none }

/-- `process_event(event, db)` from `stripe_event_processor.py`:
requires a truthy `type`, dispatches on the two supported event types
(each requiring a truthy `data.object.subscription`), and treats every
other type as a no-op. -/
def process_event (event : Event) (db : Session) : ProcResult :=
  if !truthy event.type_ then
    { db := db, err := some (.malformed "Missing type in event payload") }
  else
    let event_type := event.type_.getD ""
    if event_type = "invoice.payment_succeeded" then
      if !truthy event.data_object_subscription then
        { db := db, err := some (.malformed "Missing subscription id in invoice.payment_succeeded event") }
      else
        handleStatusUpdate db (event.data_object_subscription.getD "") "active"
    else if event_type = "customer.subscription.deleted" then
      if !truthy event.data_object_subscription then
        { db := db, err := some (.malformed "Missing subscription id in customer.subscription.deleted event") }
      else
        handleStatusUpdate db (event.data_object_subscription.getD "") "cancelled"
    else
      { db := db, err := none }

/-- The persisted status of the record with the given id. -/
def persistedStatus (db : Session) (subId : String) : Option (Option String) :=
  (findSubscription db.persisted subId).map Subscription.status

/-!
Embedding of `stripe_integration.py`: the `StripeIntegration` class and
its three mutating operations with the bounded retry loop.  The Stripe
library call made inside each loop iteration is external to the
repository, so it is a parameter: `provider n` is the outcome of the call
made while the `attempt` counter holds `n`.
-/

/-- Exceptions a Stripe library call can raise, as classified by the
`except` clauses of the retry loops: the two transient classes are caught
and retried, everything else falls to the general `except Exception`. -/
inductive StripeErr where
  | authenticationError (msg : String)
  | apiConnectionError (msg : String)
  | otherError (msg : String)
deriving DecidableEq, Repr

/-- Which exceptions the first `except` clause catches:
`stripe.error.AuthenticationError` and `stripe.error.APIConnectionError`. -/
def isTransient : StripeErr → Bool
  | .authenticationError _ => true
  | .apiConnectionError _ => true
  | .otherError _ => false

/-- Outcome of a single Stripe library call. -/
inductive CallResult (α : Type) where
  | ok (v : α)
  | exn (e : StripeErr)
deriving DecidableEq, Repr

/-- What a mutating operation raises: the original exception re-raised by
the general `except` clause, or the terminal
`Exception('Failed to ... after retries.')` after the loop exits. -/
inductive OpError where
  | permanent (e : StripeErr)
  | retryExhausted (msg : String)
deriving DecidableEq, Repr

/-- Observable side effects of one operation run: how many Stripe calls
were made and how many `time.sleep(self.retry_delay)` waits occurred. -/
structure RunStats where
  calls : Nat
  sleeps : Nat
deriving DecidableEq, Repr

/-- The `while attempt < self.max_retries` loop shared by the three
mutating operations: a successful call returns its value; a transient
exception increments `attempt` and sleeps; any other exception is
re-raised; when the loop exits, the terminal exception carrying `failMsg`
is raised. -/
def retryLoop (provider : Nat → CallResult α) (failMsg : String)
    (maxRetries attempt : Nat) (stats : RunStats) : Except OpError α × RunStats :=
  if attempt < maxRetries then
    match provider attempt with
    | .ok v => (.ok v, { stats with calls := stats.calls + 1 })
    | .exn e =>
      if isTransient e then
        retryLoop provider failMsg maxRetries (attempt + 1)
          { calls := stats.calls + 1, sleeps := stats.sleeps + 1 }
      else
        (.error (.permanent e), { stats with calls := stats.calls + 1 })
  else
    (.error (.retryExhausted failMsg), stats)
termination_by maxRetries - attempt
decreasing_by omega

/-- The `StripeIntegration` instance state set in `__init__`. -/
structure StripeIntegration where
  max_retries : Nat := 3
  retry_delay : Nat := 1
deriving DecidableEq, Repr

/-- `StripeIntegration.create_subscription`: the retry loop around
`stripe.Subscription.create(...)`. -/
def StripeIntegration.create_subscription (self : StripeIntegration)
    (provider : Nat → CallResult α) : Except OpError α × RunStats :=
  retryLoop provider "Failed to create subscription after retries." self.max_retries 0 ⟨0, 0⟩

/-- `StripeIntegration.update_subscription`: the retry loop around
`stripe.Subscription.modify(...)`. -/
def StripeIntegration.update_subscription (self : StripeIntegration)
    (provider : Nat → CallResult α) : Except OpError α × RunStats :=
  retryLoop provider "Failed to update subscription after retries." self.max_retries 0 ⟨0, 0⟩

/-- `StripeIntegration.cancel_subscription`: the retry loop around
`stripe.Subscription.delete(...)`. -/
def StripeIntegration.cancel_subscription (self : StripeIntegration)
    (provider : Nat → CallResult α) : Except OpError α × RunStats :=
  retryLoop provider "Failed to cancel subscription after retries." self.max_retries 0 ⟨0, 0⟩

/-!
Embedding of the router pieces the claims need
(`routers/stripe_router.py`).
-/

/-- Metadata construction after a successful `process_event` call in
`process_webhook`: keyed on `event.get('type', '')`, values taken from the
event only.  Keys and values are the literal strings the code builds. -/
def buildMetadata (event : Event) : List (String × Option String) :=
  let event_type := event.type_.getD ""
  if event_type = "invoice.payment_succeeded" then
    [("subscription_id", event.data_object_subscription), ("status", some "active")]
  else if event_type = "customer.subscription.deleted" then
    [("subscription_id", event.data_object_subscription), ("status", some "cancelled")]
  else
    []

/-- The dispatch segment of `process_webhook` (after signature
verification succeeded): run `process_event`; any exception becomes an
HTTP 400 with a fixed detail; otherwise return the session and the
metadata for the 200 response. -/
def process_webhook_dispatch (event : Event) (db : Session) :
    Except (Nat × String) (Session × List (String × Option String)) :=
  match (process_event event db).err with
  | some _ => .error (400, "Error processing webhook event")
  | none => .ok ((process_event event db).db, buildMetadata event)

/-- Modelled from the spec: the outcome of
`StripeIntegration.retrieve_subscription`, which the router and the tests
reference but which is missing from the source of `stripe_integration.py`.
Per the spec's failure mapping for GET, a retrieval either succeeds with a
subscription, raises a validation error (`ValueError`), or raises some
other failure. -/
inductive RetrievalResult (α : Type) where
  | ok (subscription : α)
  | valueError (msg : String)
  | otherError (msg : String)
deriving DecidableEq, Repr

/-- The `{"success": True, "subscription": ...}` body. -/
structure SuccessBody (α : Type) where
  success : Bool
  subscription : α
deriving DecidableEq, Repr

/-- The `get_subscription` endpoint handler: it calls
`stripe_integration.retrieve_subscription(subscription_id)` (the
`retrieve` parameter) and maps the outcome — 200 with the success body on
success, `ValueError` to HTTP 400, any other exception to HTTP 500, the
detail being the exception text. -/
def get_subscription (retrieve : String → RetrievalResult α)
    (subscription_id : String) : Nat × Except String (SuccessBody α) :=
  match retrieve subscription_id with
  | .ok s => (200, .ok ⟨true, s⟩)
  | .valueError m => (400, .error m)
  | .otherError m => (500, .error m)

/-!
Helper lemmas about `process_event`.
-/

lemma handleStatusUpdate_not_found (db : Session) (subId st : String)
    (h : findSubscription db.pending subId = none) :
    handleStatusUpdate db subId st = { db := db, err := none } := by
  simp [handleStatusUpdate, h]

lemma handleStatusUpdate_commit_fail (db : Session) (subId st e : String)
    (h1 : (findSubscription db.pending subId).isSome = true)
    (h2 : db.commitError = some e) :
    handleStatusUpdate db subId st =
      { db := { db with pending := db.persisted },
        err := some (.commitFailure e) } := by
  obtain ⟨r, hr⟩ := Option.isSome_iff_exists.mp h1
  simp [handleStatusUpdate, hr, Session.mutate, Session.commit, Session.rollback, h2]

lemma handleStatusUpdate_commit_ok (db : Session) (subId st : String)
    (h1 : (findSubscription db.pending subId).isSome = true)
    (h2 : db.commitError = none) :
    handleStatusUpdate db subId st =
      { db := { persisted := updateFirst db.pending subId st,
                pending := updateFirst db.pending subId st,
                commitError := none },
        err := none } := by
  obtain ⟨r, hr⟩ := Option.isSome_iff_exists.mp h1
  simp [handleStatusUpdate, hr, Session.mutate, Session.commit, h2]

lemma process_event_payment (ev : Event) (db : Session) (subId : String)
    (h1 : ev.type_ = some "invoice.payment_succeeded")
    (h2 : ev.data_object_subscription = some subId) (h3 : subId ≠ "") :
    process_event ev db = handleStatusUpdate db subId "active" := by
  simp [process_event, truthy, h1, h2, h3]

lemma process_event_deleted (ev : Event) (db : Session) (subId : String)
    (h1 : ev.type_ = some "customer.subscription.deleted")
    (h2 : ev.data_object_subscription = some subId) (h3 : subId ≠ "") :
    process_event ev db = handleStatusUpdate db subId "cancelled" := by
  simp [process_event, truthy, h1, h2, h3]

/-- C9: an event whose `type` is missing or empty always fails with the
malformed-event error (a `ValueError`), whatever the other fields hold,
and the session — persisted rows included — is returned unchanged. -/
theorem C9_missing_type_rejected (ev : Event) (db : Session)
    (h : ev.type_ = none ∨ ev.type_ = some "") :
    process_event ev db =
      { db := db, err := some (.malformed "Missing type in event payload") } := by
  rcases h with h | h <;> simp [process_event, truthy, h]

/-- Witness for C9 at a concrete event with every other field populated. -/
theorem C9_missing_type_rejected_witness :
    process_event
      { type_ := none, id := some "evt_9", created := some 1234567890,
        data_object_subscription := some "sub_123" }
      { persisted := [{ stripe_subscription_id := "sub_123", status := some "pending" }],
        pending := [{ stripe_subscription_id := "sub_123", status := some "pending" }],
        commitError := none } =
      { db := { persisted := [{ stripe_subscription_id := "sub_123", status := some "pending" }],
                pending := [{ stripe_subscription_id := "sub_123", status := some "pending" }],
                commitError := none },
        err := some (.malformed "Missing type in event payload") } :=
  C9_missing_type_rejected _ _ (Or.inl rfl)

/-- C7: an event with a non-empty type that is neither of the two
supported types is a no-op success: no error is raised and the session —
every record, persisted and pending — is returned unchanged, with no
commit performed. -/
theorem C7_unknown_type_noop (ev : Event) (db : Session) (t : String)
    (h1 : ev.type_ = some t) (h2 : t ≠ "")
    (h3 : t ≠ "invoice.payment_succeeded")
    (h4 : t ≠ "customer.subscription.deleted") :
    process_event ev db = { db := db, err := none } := by
  simp [process_event, truthy, h1, h2, h3, h4]

/-- Witness for C7 at the spec's `unknown.event` example. -/
theorem C7_unknown_type_noop_witness :
    process_event
      { type_ := some "unknown.event", id := some "evt_7", created := some 1234567890,
        data_object_subscription := some "sub_123" }
      { persisted := [{ stripe_subscription_id := "sub_123", status := some "pending" }],
        pending := [{ stripe_subscription_id := "sub_123", status := some "pending" }],
        commitError := none } =
      { db := { persisted := [{ stripe_subscription_id := "sub_123", status := some "pending" }],
                pending := [{ stripe_subscription_id := "sub_123", status := some "pending" }],
                commitError := none },
        err := none } :=
  C7_unknown_type_noop _ _ "unknown.event" rfl (by decide) (by decide) (by decide)

/-- C8: a supported event whose subscription id matches no record is a
no-op success: no error, and the session is returned entirely unchanged —
no record created, modified or deleted. -/
theorem C8_not_found_noop (ev : Event) (db : Session) (subId : String)
    (h1 : ev.type_ = some "invoice.payment_succeeded" ∨
          ev.type_ = some "customer.subscription.deleted")
    (h2 : ev.data_object_subscription = some subId) (h3 : subId ≠ "")
    (h4 : findSubscription db.pending subId = none) :
    process_event ev db = { db := db, err := none } := by
  rcases h1 with h1 | h1
  · rw [process_event_payment ev db subId h1 h2 h3, handleStatusUpdate_not_found db subId _ h4]
  · rw [process_event_deleted ev db subId h1 h2 h3, handleStatusUpdate_not_found db subId _ h4]

/-- Witness for C8: a deleted-event for an id absent from the store. -/
theorem C8_not_found_noop_witness :
    process_event
      { type_ := some "customer.subscription.deleted", id := some "evt_8",
        created := some 1234567890, data_object_subscription := some "sub_999" }
      { persisted := [{ stripe_subscription_id := "sub_123", status := some "active" }],
        pending := [{ stripe_subscription_id := "sub_123", status := some "active" }],
        commitError := none } =
      { db := { persisted := [{ stripe_subscription_id := "sub_123", status := some "active" }],
                pending := [{ stripe_subscription_id := "sub_123", status := some "active" }],
                commitError := none },
        err := none } :=
  C8_not_found_noop _ _ "sub_999" (Or.inr rfl) rfl (by decide) (by decide)

/-- C10: a supported event whose `data.object.subscription` is the empty
string is rejected as malformed exactly as if the field were absent, and
the session is returned unchanged. -/
theorem C10_empty_sub_id_rejected (ev : Event) (db : Session)
    (h1 : ev.type_ = some "invoice.payment_succeeded" ∨
          ev.type_ = some "customer.subscription.deleted")
    (h2 : ev.data_object_subscription = some "") :
    (∃ msg, process_event ev db = { db := db, err := some (.malformed msg) }) ∧
    process_event ev db =
      process_event { ev with data_object_subscription := none } db := by
  rcases h1 with h1 | h1
  · exact ⟨⟨"Missing subscription id in invoice.payment_succeeded event",
        by simp [process_event, truthy, h1, h2]⟩,
      by simp [process_event, truthy, h1, h2]⟩
  · exact ⟨⟨"Missing subscription id in customer.subscription.deleted event",
        by simp [process_event, truthy, h1, h2]⟩,
      by simp [process_event, truthy, h1, h2]⟩

/-- Witness for C10 at a concrete payment-succeeded event. -/
theorem C10_empty_sub_id_rejected_witness :
    (∃ msg, process_event
      { type_ := some "invoice.payment_succeeded", id := some "evt_10",
        created := some 1234567890, data_object_subscription := some "" }
      { persisted := [{ stripe_subscription_id := "sub_123", status := some "pending" }],
        pending := [{ stripe_subscription_id := "sub_123", status := some "pending" }],
        commitError := none } =
      { db := { persisted := [{ stripe_subscription_id := "sub_123", status := some "pending" }],
                pending := [{ stripe_subscription_id := "sub_123", status := some "pending" }],
                commitError := none },
        err := some (.malformed msg) }) ∧
    process_event
      { type_ := some "invoice.payment_succeeded", id := some "evt_10",
        created := some 1234567890, data_object_subscription := some "" }
      { persisted := [{ stripe_subscription_id := "sub_123", status := some "pending" }],
        pending := [{ stripe_subscription_id := "sub_123", status := some "pending" }],
        commitError := none } =
    process_event
      { type_ := some "invoice.payment_succeeded", id := some "evt_10",
        created := some 1234567890, data_object_subscription := none }
      { persisted := [{ stripe_subscription_id := "sub_123", status := some "pending" }],
        pending := [{ stripe_subscription_id := "sub_123", status := some "pending" }],
        commitError := none } :=
  C10_empty_sub_id_rejected _ _ (Or.inl rfl) rfl

/-- C1: for a supported event whose record exists in a fresh unit of work,
if the commit raises, `process_event` rolls back — the returned session
equals the original, so the persisted status equals its pre-mutation value
— and re-raises the very commit exception it observed. -/
theorem C1_commit_failure_rolls_back (ev : Event) (db : Session)
    (subId e : String)
    (h1 : ev.type_ = some "invoice.payment_succeeded" ∨
          ev.type_ = some "customer.subscription.deleted")
    (h2 : ev.data_object_subscription = some subId) (h3 : subId ≠ "")
    (h4 : (findSubscription db.pending subId).isSome = true)
    (h5 : db.pending = db.persisted)
    (h6 : db.commitError = some e) :
    process_event ev db = { db := db, err := some (.commitFailure e) } := by
  have hdb : ({ db with pending := db.persisted } : Session) = db := by
    cases db; simp_all
  rcases h1 with h1 | h1
  · rw [process_event_payment ev db subId h1 h2 h3,
      handleStatusUpdate_commit_fail db subId _ e h4 h6, hdb]
  · rw [process_event_deleted ev db subId h1 h2 h3,
      handleStatusUpdate_commit_fail db subId _ e h4 h6, hdb]

/-- Witness for C1: a failing commit on the spec's scenario store leaves
the persisted status `pending` and propagates the injected error. -/
theorem C1_commit_failure_rolls_back_witness :
    process_event
      { type_ := some "invoice.payment_succeeded", id := some "evt_1",
        created := some 1234567890, data_object_subscription := some "sub_123" }
      { persisted := [{ stripe_subscription_id := "sub_123", status := some "pending" }],
        pending := [{ stripe_subscription_id := "sub_123", status := some "pending" }],
        commitError := some "database unavailable" } =
      { db := { persisted := [{ stripe_subscription_id := "sub_123", status := some "pending" }],
                pending := [{ stripe_subscription_id := "sub_123", status := some "pending" }],
                commitError := some "database unavailable" },
        err := some (.commitFailure "database unavailable") } :=
  C1_commit_failure_rolls_back _ _ "sub_123" "database unavailable"
    (Or.inl rfl) rfl (by decide) (by decide) rfl rfl

/-- Updating the first matching row leaves it findable, with the new
status. -/
lemma findSubscription_updateFirst (rows : List Subscription) (subId st : String)
    (r : Subscription) (h : findSubscription rows subId = some r) :
    findSubscription (updateFirst rows subId st) subId =
      some { r with status := some st } := by
  induction rows with
  | nil => simp [findSubscription] at h
  | cons r0 rs ih =>
    by_cases hid : (r0.stripe_subscription_id == subId) = true
    · simp [findSubscription, updateFirst, List.find?_cons, hid] at h ⊢
      rw [← h]
    · simp [findSubscription, updateFirst, List.find?_cons, hid] at h ⊢
      exact ih h

/-- Applying the found-record branch twice: both runs return normally and
both leave the persisted status at the assigned value. -/
lemma handleStatusUpdate_twice (db : Session) (subId st : String)
    (hc : db.commitError = none)
    (h4 : (findSubscription db.pending subId).isSome = true) :
    (handleStatusUpdate db subId st).err = none ∧
    (handleStatusUpdate (handleStatusUpdate db subId st).db subId st).err = none ∧
    persistedStatus (handleStatusUpdate db subId st).db subId = some (some st) ∧
    persistedStatus (handleStatusUpdate (handleStatusUpdate db subId st).db subId st).db
      subId = some (some st) := by
  obtain ⟨r, hr⟩ := Option.isSome_iff_exists.mp h4
  have hu1 := findSubscription_updateFirst db.pending subId st r hr
  have hu2 := findSubscription_updateFirst (updateFirst db.pending subId st) subId st
    { r with status := some st } hu1
  rw [handleStatusUpdate_commit_ok db subId st h4 hc]
  have h4' : (findSubscription
      (({ persisted := updateFirst db.pending subId st,
          pending := updateFirst db.pending subId st,
          commitError := none } : Session)).pending subId).isSome = true := by
    simp [hu1]
  rw [handleStatusUpdate_commit_ok _ subId st h4' rfl]
  simp [persistedStatus, hu1, hu2]

/-- C4: applying the same supported event twice against the same store
(with commits succeeding) raises no error on either run — in particular
none on the second — and the persisted status of the target record is the
branch's assigned value (`active` or `cancelled`) after each run. -/
theorem C4_reapply_idempotent (ev : Event) (db : Session) (subId target : String)
    (hc : db.commitError = none)
    (h2 : ev.data_object_subscription = some subId) (h3 : subId ≠ "")
    (h1 : (ev.type_ = some "invoice.payment_succeeded" ∧ target = "active") ∨
          (ev.type_ = some "customer.subscription.deleted" ∧ target = "cancelled"))
    (h4 : (findSubscription db.pending subId).isSome = true) :
    (process_event ev db).err = none ∧
    (process_event ev (process_event ev db).db).err = none ∧
    persistedStatus (process_event ev db).db subId = some (some target) ∧
    persistedStatus (process_event ev (process_event ev db).db).db subId =
      some (some target) := by
  rcases h1 with ⟨h1, ht⟩ | ⟨h1, ht⟩ <;> subst ht
  · have hrw : ∀ d : Session, process_event ev d = handleStatusUpdate d subId "active" :=
      fun d => process_event_payment ev d subId h1 h2 h3
    rw [hrw, hrw]
    exact handleStatusUpdate_twice db subId "active" hc h4
  · have hrw : ∀ d : Session, process_event ev d = handleStatusUpdate d subId "cancelled" :=
      fun d => process_event_deleted ev d subId h1 h2 h3
    rw [hrw, hrw]
    exact handleStatusUpdate_twice db subId "cancelled" hc h4

/-- Witness for C4 at the spec's scenario: `sub_123` starts `pending`,
the payment-succeeded event is applied twice. -/
theorem C4_reapply_idempotent_witness :
    (process_event
      { type_ := some "invoice.payment_succeeded", id := some "evt_1",
        created := some 1234567890, data_object_subscription := some "sub_123" }
      { persisted := [{ stripe_subscription_id := "sub_123", status := some "pending" }],
        pending := [{ stripe_subscription_id := "sub_123", status := some "pending" }],
        commitError := none }).err = none ∧
    (process_event
      { type_ := some "invoice.payment_succeeded", id := some "evt_1",
        created := some 1234567890, data_object_subscription := some "sub_123" }
      (process_event
        { type_ := some "invoice.payment_succeeded", id := some "evt_1",
          created := some 1234567890, data_object_subscription := some "sub_123" }
        { persisted := [{ stripe_subscription_id := "sub_123", status := some "pending" }],
          pending := [{ stripe_subscription_id := "sub_123", status := some "pending" }],
          commitError := none }).db).err = none ∧
    persistedStatus (process_event
      { type_ := some "invoice.payment_succeeded", id := some "evt_1",
        created := some 1234567890, data_object_subscription := some "sub_123" }
      { persisted := [{ stripe_subscription_id := "sub_123", status := some "pending" }],
        pending := [{ stripe_subscription_id := "sub_123", status := some "pending" }],
        commitError := none }).db "sub_123" = some (some "active") ∧
    persistedStatus (process_event
      { type_ := some "invoice.payment_succeeded", id := some "evt_1",
        created := some 1234567890, data_object_subscription := some "sub_123" }
      (process_event
        { type_ := some "invoice.payment_succeeded", id := some "evt_1",
          created := some 1234567890, data_object_subscription := some "sub_123" }
        { persisted := [{ stripe_subscription_id := "sub_123", status := some "pending" }],
          pending := [{ stripe_subscription_id := "sub_123", status := some "pending" }],
          commitError := none }).db).db "sub_123" = some (some "active") :=
  C4_reapply_idempotent _ _ "sub_123" "active" rfl rfl (by decide)
    (Or.inl ⟨rfl, rfl⟩) (by decide)

/-!
Lemmas about the retry loop.
-/

/-- If every call is a transient failure, the loop runs until the attempt
counter reaches the bound, then raises the terminal exception; each
remaining iteration adds one call and one sleep. -/
lemma retryLoop_all_transient {α : Type} (provider : Nat → CallResult α)
    (msg : String) (m : Nat)
    (hprov : ∀ n, ∃ e, provider n = .exn e ∧ isTransient e = true) :
    ∀ (k a c s : Nat), m - a = k →
      retryLoop provider msg m a ⟨c, s⟩ =
        (.error (.retryExhausted msg), ⟨c + (m - a), s + (m - a)⟩) := by
  intro k
  induction k with
  | zero =>
    intro a c s hk
    rw [retryLoop]
    have hlt : ¬ a < m := by omega
    simp [hlt, hk]
  | succ k ih =>
    intro a c s hk
    have ha : a < m := by omega
    rw [retryLoop]
    obtain ⟨e, he, ht⟩ := hprov a
    rw [ih (a + 1) (c + 1) (s + 1) (by omega)]
    simp only [ha, if_true, he, ht]
    have h1 : c + 1 + (m - (a + 1)) = c + (m - a) := by omega
    have h2 : s + 1 + (m - (a + 1)) = s + (m - a) := by omega
    rw [h1, h2]

/-- Running the loop past a prefix of transient failures advances the
attempt counter and charges one call and one sleep per failure. -/
lemma retryLoop_skip_transient {α : Type} (provider : Nat → CallResult α)
    (msg : String) (m : Nat) :
    ∀ (j a c s : Nat), a + j ≤ m →
      (∀ n, a ≤ n → n < a + j → ∃ e, provider n = .exn e ∧ isTransient e = true) →
      retryLoop provider msg m a ⟨c, s⟩ =
        retryLoop provider msg m (a + j) ⟨c + j, s + j⟩ := by
  intro j
  induction j with
  | zero => intro a c s _ _; simp
  | succ j ih =>
    intro a c s hle htr
    have ha : a < m := by omega
    rw [retryLoop]
    obtain ⟨e, he, ht⟩ := htr a (Nat.le_refl a) (by omega)
    rw [ih (a + 1) (c + 1) (s + 1) (by omega)
      (fun n h1 h2 => htr n (by omega) (by omega))]
    simp only [ha, if_true, he, ht]
    have h1 : a + 1 + j = a + (j + 1) := by omega
    have h2 : c + 1 + j = c + (j + 1) := by omega
    have h3 : s + 1 + j = s + (j + 1) := by omega
    rw [h1, h2, h3]

/-- A non-transient exception inside the loop is re-raised at once:
one more call, no sleep, no further iteration. -/
lemma retryLoop_permanent {α : Type} (provider : Nat → CallResult α)
    (msg : String) (m a c s : Nat) (e : StripeErr)
    (ha : a < m) (he : provider a = .exn e) (ht : isTransient e = false) :
    retryLoop provider msg m a ⟨c, s⟩ = (.error (.permanent e), ⟨c + 1, s⟩) := by
  rw [retryLoop]
  simp [ha, he, ht]

/-- C2: when every provider call fails transiently, each of the three
mutating operations makes exactly `max_retries` calls (sleeping after
each) and then raises the terminal retries-exhausted exception — a
different exception from every transient cause — never looping on and
never returning a value. -/
theorem C2_transient_exhausts_retries {α : Type} (self : StripeIntegration)
    (provider : Nat → CallResult α)
    (_hmax : 1 ≤ self.max_retries)
    (hprov : ∀ n, ∃ e, provider n = .exn e ∧ isTransient e = true) :
    self.create_subscription provider =
      (.error (.retryExhausted "Failed to create subscription after retries."),
       ⟨self.max_retries, self.max_retries⟩) ∧
    self.update_subscription provider =
      (.error (.retryExhausted "Failed to update subscription after retries."),
       ⟨self.max_retries, self.max_retries⟩) ∧
    self.cancel_subscription provider =
      (.error (.retryExhausted "Failed to cancel subscription after retries."),
       ⟨self.max_retries, self.max_retries⟩) := by
  refine ⟨?_, ?_, ?_⟩ <;>
    simp [StripeIntegration.create_subscription, StripeIntegration.update_subscription,
      StripeIntegration.cancel_subscription,
      retryLoop_all_transient provider _ self.max_retries hprov
        (self.max_retries - 0) 0 0 0 rfl]

/-- Witness for C2: two allowed attempts, every call failing with a
connectivity error. -/
theorem C2_transient_exhausts_retries_witness :
    StripeIntegration.create_subscription ⟨2, 1⟩
      (fun _ => (CallResult.exn (StripeErr.apiConnectionError "connection reset") :
        CallResult String)) =
      (.error (.retryExhausted "Failed to create subscription after retries."), ⟨2, 2⟩) ∧
    StripeIntegration.update_subscription ⟨2, 1⟩
      (fun _ => (CallResult.exn (StripeErr.apiConnectionError "connection reset") :
        CallResult String)) =
      (.error (.retryExhausted "Failed to update subscription after retries."), ⟨2, 2⟩) ∧
    StripeIntegration.cancel_subscription ⟨2, 1⟩
      (fun _ => (CallResult.exn (StripeErr.apiConnectionError "connection reset") :
        CallResult String)) =
      (.error (.retryExhausted "Failed to cancel subscription after retries."), ⟨2, 2⟩) :=
  C2_transient_exhausts_retries ⟨2, 1⟩ _ (by decide)
    (fun _ => ⟨StripeErr.apiConnectionError "connection reset", rfl, rfl⟩)

/-- C3: if the call made at attempt `k` (after `k` transient failures)
raises a non-transient exception, each of the three mutating operations
re-raises that very exception immediately: exactly `k + 1` calls, no
sleep for the permanent failure, and in particular exactly one call when
it happens first. -/
theorem C3_permanent_fails_immediately {α : Type} (self : StripeIntegration)
    (provider : Nat → CallResult α) (k : Nat) (e : StripeErr)
    (hk : k < self.max_retries)
    (htr : ∀ n, n < k → ∃ t, provider n = .exn t ∧ isTransient t = true)
    (he : provider k = .exn e) (hp : isTransient e = false) :
    self.create_subscription provider = (.error (.permanent e), ⟨k + 1, k⟩) ∧
    self.update_subscription provider = (.error (.permanent e), ⟨k + 1, k⟩) ∧
    self.cancel_subscription provider = (.error (.permanent e), ⟨k + 1, k⟩) := by
  have hskip : ∀ msg, retryLoop provider msg self.max_retries 0 ⟨0, 0⟩ =
      (.error (.permanent e), ⟨k + 1, k⟩) := by
    intro msg
    rw [retryLoop_skip_transient provider msg self.max_retries k 0 0 0 (by omega)
      (fun n _ h2 => htr n (by omega))]
    simpa using retryLoop_permanent provider msg self.max_retries k k k e hk he hp
  exact ⟨hskip _, hskip _, hskip _⟩

/-- Witness for C3: one transient failure, then a permanent validation
error at the second attempt; and the operations stop with 2 calls. -/
theorem C3_permanent_fails_immediately_witness :
    StripeIntegration.create_subscription ⟨3, 1⟩
      (fun n => (match n with
        | 0 => CallResult.exn (StripeErr.apiConnectionError "connection reset")
        | _ + 1 => CallResult.exn (StripeErr.otherError "invalid price id") :
        CallResult String)) =
      (.error (.permanent (StripeErr.otherError "invalid price id")), ⟨2, 1⟩) ∧
    StripeIntegration.update_subscription ⟨3, 1⟩
      (fun n => (match n with
        | 0 => CallResult.exn (StripeErr.apiConnectionError "connection reset")
        | _ + 1 => CallResult.exn (StripeErr.otherError "invalid price id") :
        CallResult String)) =
      (.error (.permanent (StripeErr.otherError "invalid price id")), ⟨2, 1⟩) ∧
    StripeIntegration.cancel_subscription ⟨3, 1⟩
      (fun n => (match n with
        | 0 => CallResult.exn (StripeErr.apiConnectionError "connection reset")
        | _ + 1 => CallResult.exn (StripeErr.otherError "invalid price id") :
        CallResult String)) =
      (.error (.permanent (StripeErr.otherError "invalid price id")), ⟨2, 1⟩) :=
  C3_permanent_fails_immediately ⟨3, 1⟩ _ 1 (StripeErr.otherError "invalid price id")
    (by decide)
    (by intro n hn
        have hzero : n = 0 := by omega
        subst hzero
        exact ⟨StripeErr.apiConnectionError "connection reset", rfl, rfl⟩)
    rfl rfl

/-- C5 counterexample: on the spec's own scenario (event
`invoice.payment_succeeded` for `sub_123`, record present, dispatch
succeeds) the metadata the router builds carries the key
`subscription_id`, which is not the key `subscriptionId` the claim
states. -/
theorem C5_metadata_key_counterexample :
    process_webhook_dispatch
      { type_ := some "invoice.payment_succeeded", id := some "evt_1",
        created := some 1234567890, data_object_subscription := some "sub_123" }
      { persisted := [{ stripe_subscription_id := "sub_123", status := some "pending" }],
        pending := [{ stripe_subscription_id := "sub_123", status := some "pending" }],
        commitError := none } =
      .ok ({ persisted := [{ stripe_subscription_id := "sub_123", status := some "active" }],
             pending := [{ stripe_subscription_id := "sub_123", status := some "active" }],
             commitError := none },
           [("subscription_id", some "sub_123"), ("status", some "active")]) ∧
    ([("subscription_id", some "sub_123"), ("status", some "active")] :
        List (String × Option String)) ≠
      [("subscriptionId", some "sub_123"), ("status", some "active")] := by
  constructor
  · rfl
  · decide

/-- C5 (amended): for every successfully dispatched webhook event the
metadata depends only on the event type and the extracted subscription
id — identical for any store on which dispatch succeeds — and equals
`subscription_id`/`status` pairs `(id, active)` for payment-succeeded,
`(id, cancelled)` for subscription-deleted, and the empty map
otherwise. -/
theorem C5_metadata_from_event_only (ev : Event) (db db' db2 db2' : Session)
    (md md' : List (String × Option String))
    (h : process_webhook_dispatch ev db = .ok (db2, md))
    (h' : process_webhook_dispatch ev db' = .ok (db2', md')) :
    (ev.type_.getD "" = "invoice.payment_succeeded" →
      md = [("subscription_id", ev.data_object_subscription), ("status", some "active")]) ∧
    (ev.type_.getD "" = "customer.subscription.deleted" →
      md = [("subscription_id", ev.data_object_subscription), ("status", some "cancelled")]) ∧
    (ev.type_.getD "" ≠ "invoice.payment_succeeded" →
      ev.type_.getD "" ≠ "customer.subscription.deleted" → md = []) ∧
    md' = md := by
  have hmd : ∀ (d d2 : Session) (m : List (String × Option String)),
      process_webhook_dispatch ev d = .ok (d2, m) → m = buildMetadata ev := by
    intro d d2 m hd
    unfold process_webhook_dispatch at hd
    cases herr : (process_event ev d).err with
    | some e => rw [herr] at hd; simp at hd
    | none => rw [herr] at hd; simp at hd; exact hd.2.symm
  have h1 := hmd db db2 md h
  have h2 := hmd db' db2' md' h'
  subst h1
  refine ⟨?_, ?_, ?_, h2⟩
  · intro ht; simp [buildMetadata, ht]
  · intro ht; simp [buildMetadata, ht]
  · intro ht1 ht2; simp [buildMetadata, ht1, ht2]

/-- Witness for C5 (amended) at the scenario event, dispatched once
against the scenario store and once against an empty store (record
absent): same metadata. -/
theorem C5_metadata_from_event_only_witness :
    ((Event.mk (some "invoice.payment_succeeded") (some "evt_1")
        (some 1234567890) (some "sub_123")).type_.getD "" =
          "invoice.payment_succeeded" →
      [("subscription_id", some "sub_123"), ("status", some "active")] =
        [("subscription_id",
          (Event.mk (some "invoice.payment_succeeded") (some "evt_1")
            (some 1234567890) (some "sub_123")).data_object_subscription),
         ("status", some "active")]) ∧
    ((Event.mk (some "invoice.payment_succeeded") (some "evt_1")
        (some 1234567890) (some "sub_123")).type_.getD "" =
          "customer.subscription.deleted" →
      [("subscription_id", some "sub_123"), ("status", some "active")] =
        [("subscription_id",
          (Event.mk (some "invoice.payment_succeeded") (some "evt_1")
            (some 1234567890) (some "sub_123")).data_object_subscription),
         ("status", some "cancelled")]) ∧
    ((Event.mk (some "invoice.payment_succeeded") (some "evt_1")
        (some 1234567890) (some "sub_123")).type_.getD "" ≠
          "invoice.payment_succeeded" →
      (Event.mk (some "invoice.payment_succeeded") (some "evt_1")
        (some 1234567890) (some "sub_123")).type_.getD "" ≠
          "customer.subscription.deleted" →
      ([("subscription_id", some "sub_123"), ("status", some "active")] :
        List (String × Option String)) = []) ∧
    ([("subscription_id", some "sub_123"), ("status", some "active")] :
        List (String × Option String)) =
      [("subscription_id", some "sub_123"), ("status", some "active")] :=
  C5_metadata_from_event_only
    (Event.mk (some "invoice.payment_succeeded") (some "evt_1")
      (some 1234567890) (some "sub_123"))
    { persisted := [{ stripe_subscription_id := "sub_123", status := some "pending" }],
      pending := [{ stripe_subscription_id := "sub_123", status := some "pending" }],
      commitError := none }
    { persisted := [], pending := [], commitError := none }
    { persisted := [{ stripe_subscription_id := "sub_123", status := some "active" }],
      pending := [{ stripe_subscription_id := "sub_123", status := some "active" }],
      commitError := none }
    { persisted := [], pending := [], commitError := none }
    [("subscription_id", some "sub_123"), ("status", some "active")]
    [("subscription_id", some "sub_123"), ("status", some "active")]
    rfl rfl

/-- C6: the GET endpoint returns 200 with the success body when retrieval
succeeds, maps a `ValueError` from retrieval to HTTP 400, and maps any
other failure to HTTP 500. -/
theorem C6_get_subscription_status_mapping {α : Type}
    (retrieve : String → RetrievalResult α) (subscription_id : String) :
    (∀ s, retrieve subscription_id = .ok s →
      get_subscription retrieve subscription_id = (200, .ok ⟨true, s⟩)) ∧
    (∀ m, retrieve subscription_id = .valueError m →
      (get_subscription retrieve subscription_id).1 = 400) ∧
    (∀ m, retrieve subscription_id = .otherError m →
      (get_subscription retrieve subscription_id).1 = 500) := by
  refine ⟨?_, ?_, ?_⟩ <;> intro x h <;> simp [get_subscription, h]

/-- Witness for C6 at the three retrieval outcomes the tests exercise. -/
theorem C6_get_subscription_status_mapping_witness :
    get_subscription (fun i => (RetrievalResult.ok i : RetrievalResult String))
      "sub_test" = (200, .ok ⟨true, "sub_test"⟩) ∧
    (get_subscription
      (fun _ => (RetrievalResult.valueError "subscription_id cannot be empty" :
        RetrievalResult String)) "   ").1 = 400 ∧
    (get_subscription
      (fun _ => (RetrievalResult.otherError "no attribute retrieve_subscription" :
        RetrievalResult String)) "sub_test").1 = 500 :=
  ⟨(C6_get_subscription_status_mapping (fun i => .ok i) "sub_test").1 "sub_test" rfl,
   (C6_get_subscription_status_mapping _ "   ").2.1 _ rfl,
   (C6_get_subscription_status_mapping _ "sub_test").2.2 _ rfl⟩
